import Mathlib

/-!
Shallow embedding of the template layout model of the meme/template creator
repository: the fabric.js element model as the application uses it, the
Layout Document, the Layout Loader (createElementFromData and
loadTemplateData in the second revision of src/components/MemeEditor.tsx),
the Layout Exporter (saveTemplate in the video-capable TemplateCreator
revision), the video upload gate, the pending-upload staging and the
save-lock behaviour of the Save button.

Geometry is modelled over the rationals.  JavaScript default fallbacks
written as a logical-or are modelled by explicit helpers that treat 0, the
empty string and a missing value (Option.none) as falsy, exactly as
JavaScript does for the values this code passes around.
-/

namespace MemeApp

/-- JavaScript v || d for an optional number: undefined, null and 0 are falsy. -/
def jsOrN (v : Option ℚ) (d : ℚ) : ℚ :=
  match v with
  | none => d
  | some q => if q = 0 then d else q

/-- JavaScript v || d for a number that is known to be present: 0 is falsy. -/
def jsOrQ (v d : ℚ) : ℚ :=
  if v = 0 then d else v

/-- JavaScript v || d for an optional string: undefined, null and "" are falsy. -/
def jsOrS (v : Option String) (d : String) : String :=
  match v with
  | none => d
  | some s => if s = "" then d else s

/-- JavaScript truthiness of an optional number. -/
def truthyN (v : Option ℚ) : Bool :=
  match v with
  | none => false
  | some q => if q = 0 then false else true

/-- JavaScript truthiness of an optional string. -/
def truthyS (v : Option String) : Bool :=
  match v with
  | none => false
  | some s => if s = "" then false else true

/-- JavaScript Math.round: round half towards positive infinity. -/
def jsRound (q : ℚ) : ℤ :=
  ⌊q + 1 / 2⌋

/-- A fabric.js object as the application uses it: a loosely typed record
with a type tag ("textbox", "rect", "circle" or "image") plus the built-in
properties the code reads or writes and the ad-hoc fields the application
attaches to image objects (imageId, videoId, isVideo, videoDuration,
videoUrl, originalFileName).  Video elements on the canvas are fabric
images of the decoded first frame with isVideo set. -/
structure FabricObject where
  type : String
  left : ℚ := 0
  top : ℚ := 0
  width : ℚ := 0
  height : ℚ := 0
  scaleX : ℚ := 1
  scaleY : ℚ := 1
  radius : ℚ := 0
  strokeWidth : ℚ := 1
  fill : String := ""
  stroke : String := ""
  text : String := ""
  fontSize : ℚ := 0
  fontFamily : String := ""
  isVideo : Bool := false
  imageId : Option String := none
  videoId : Option String := none
  videoDuration : ℚ := 0
  videoUrl : String := ""
  originalFileName : String := ""
  deriving Repr, DecidableEq

/-- The rendered bounding box returned by fabric getBoundingRect. -/
structure Bounds where
  left : ℚ
  top : ℚ
  width : ℚ
  height : ℚ
  deriving Repr, DecidableEq

/-- Fabric getBoundingRect for an unrotated object with the default
origins: left and top are the top-left corner of the stroke-inclusive box
and the dimensions are (width + strokeWidth) * scale.  Text objects are the
exception: fabric text overrides its dimension computation to exclude the
stroke.  Images are constructed with the fabric image default
strokeWidth = 0, and circles are constructed with width = height =
2 * radius. -/
def getBoundingRect (o : FabricObject) : Bounds :=
  let sw := if o.type = "textbox" then 0 else o.strokeWidth
  { left := o.left
    top := o.top
    width := (o.width + sw) * o.scaleX
    height := (o.height + sw) * o.scaleY }

/-- One element record of a Layout Document (layout_definition.elements).
It is a JSON object, so any field may be absent; a missing type tag is
modelled as the empty string, which no branch of the loader recognises. -/
structure ElementRecord where
  id : Option String := none
  type : String := ""
  x : Option ℚ := none
  y : Option ℚ := none
  width : Option ℚ := none
  height : Option ℚ := none
  text : Option String := none
  fontSize : Option ℚ := none
  fontFamily : Option String := none
  color : Option String := none
  fill : Option String := none
  strokeColor : Option String := none
  strokeWidth : Option ℚ := none
  radius : Option ℚ := none
  imageUrl : Option String := none
  originalWidth : Option ℚ := none
  originalHeight : Option ℚ := none
  videoUrl : Option String := none
  duration : Option ℚ := none
  originalFileName : Option String := none
  deriving Repr, DecidableEq

/-- The canvas block of a Layout Document. -/
structure CanvasRecord where
  width : Option ℚ := none
  height : Option ℚ := none
  backgroundColor : Option String := none
  backgroundImage : Option String := none
  deriving Repr, DecidableEq

/-- A Layout Document (layout_definition): the canvas block and the
elements array may each be absent from the stored JSON. -/
structure LayoutDocument where
  canvas : Option CanvasRecord := none
  elements : Option (List ElementRecord) := none
  maxDuration : Option ℚ := none
  deriving Repr, DecidableEq

/-- A persisted template row, as far as the editors read it. -/
structure Template where
  name : String := ""
  type : String := "photo"
  layout_definition : Option LayoutDocument := none
  deriving Repr, DecidableEq

namespace MemeEditor

/-- The asynchronous environment of the loader: decodeImage models
FabricImage.fromURL (the natural pixel size on success, none on decode
failure) and measureText models the fabric text layout engine, giving the
height a Textbox with the given text, font size, font family and width
receives. -/
structure RenderEnv where
  decodeImage : String → Option (ℚ × ℚ)
  measureText : String → ℚ → String → ℚ → ℚ

/-- createElementFromData of MemeEditor: dispatch on the type tag of the
record.  Recognised tags are "textbox", "rect", "circle" and "image"; every
other tag falls through to the default branch, which logs a warning and
produces no object.  An image whose bitmap fails to decode is logged and
produces no object. -/
def createElementFromData (env : RenderEnv) (elementData : ElementRecord) :
    Option FabricObject :=
  if elementData.type = "textbox" then
    let txt := jsOrS elementData.text "Sample Text"
    let fs := jsOrN elementData.fontSize 16
    let ff := jsOrS elementData.fontFamily "Arial"
    let w := jsOrN elementData.width 200
    some { type := "textbox"
           left := jsOrN elementData.x 0
           top := jsOrN elementData.y 0
           fontSize := fs
           fill := jsOrS elementData.color "#000000"
           fontFamily := ff
           width := w
           height := env.measureText txt fs ff w
           text := txt }
  else if elementData.type = "rect" then
    some { type := "rect"
           left := jsOrN elementData.x 0
           top := jsOrN elementData.y 0
           fill := jsOrS elementData.fill "#ffffff"
           width := jsOrN elementData.width 100
           height := jsOrN elementData.height 60
           stroke := jsOrS elementData.strokeColor "#000000"
           strokeWidth := jsOrN elementData.strokeWidth 1 }
  else if elementData.type = "circle" then
    let r := jsOrN elementData.radius 50
    some { type := "circle"
           left := jsOrN elementData.x 0
           top := jsOrN elementData.y 0
           fill := jsOrS elementData.fill "#ffffff"
           radius := r
           width := 2 * r
           height := 2 * r
           stroke := jsOrS elementData.strokeColor "#000000"
           strokeWidth := jsOrN elementData.strokeWidth 1 }
  else if elementData.type = "image" then
    if truthyS elementData.imageUrl then
      match env.decodeImage (jsOrS elementData.imageUrl "") with
      | none => none
      | some (iw, ih) =>
        let scaled := truthyN elementData.width && truthyN elementData.height
        some { type := "image"
               left := jsOrN elementData.x 0
               top := jsOrN elementData.y 0
               width := iw
               height := ih
               strokeWidth := 0
               scaleX := if scaled then jsOrN elementData.width 0 / jsOrQ iw 1 else 1
               scaleY := if scaled then jsOrN elementData.height 0 / jsOrQ ih 1 else 1 }
    else none
  else none

/-- getCanvasDimensions of MemeEditor: dimensions from the canvas block of
the template when it exists (with per-field fallback 400), otherwise the
defaults by template type. -/
def getCanvasDimensions (template : Template) : ℚ × ℚ :=
  match template.layout_definition with
  | some doc =>
    match doc.canvas with
    | some c => (jsOrN c.width 400, jsOrN c.height 400)
    | none => if template.type = "video" then (400, 711) else (400, 400)
  | none => if template.type = "video" then (400, 711) else (400, 400)

/-- The element phase of loadTemplateData: elements are reconstructed in
document order when the elements field is an array, and each failed
reconstruction is skipped. -/
def loadElements (env : RenderEnv) (elements : Option (List ElementRecord)) :
    List FabricObject :=
  match elements with
  | some es => es.filterMap (createElementFromData env)
  | none => []

/-- The background-image phase of loadTemplateData: when the canvas block
carries a truthy backgroundImage URL the bitmap is decoded and scaled to
exactly fill the canvas; a decode failure is logged and leaves no
background image. -/
def loadBackgroundImage (env : RenderEnv) (dims : ℚ × ℚ)
    (canvas : Option CanvasRecord) : Option FabricObject :=
  let url := canvas.bind CanvasRecord.backgroundImage
  if truthyS url then
    match env.decodeImage (jsOrS url "") with
    | none => none
    | some (iw, ih) =>
      some { type := "image"
             width := iw
             height := ih
             strokeWidth := 0
             scaleX := dims.1 / jsOrQ iw 1
             scaleY := dims.2 / jsOrQ ih 1 }
  else none

/-- The live canvas produced by a completed load. -/
structure CanvasState where
  width : ℚ
  height : ℚ
  backgroundColor : String
  backgroundImage : Option FabricObject
  objects : List FabricObject
  deriving Repr, DecidableEq

/-- Outcome of loadTemplateData: skipped is the silent early return taken
when the template has no layout_definition; loaded is the normal completion
path ending in the success toast.  The catch branch that surfaces the
failure toast only fires on a thrown exception, and no branch of the body
throws for any input this embedding represents. -/
inductive LoadResult where
  | skipped
  | loaded (cs : CanvasState)
  deriving Repr, DecidableEq

/-- loadTemplateData of MemeEditor: clear the canvas, apply the dimensions
from getCanvasDimensions, apply the background color (default white) and
the optional background image, then reconstruct the elements in document
order, awaiting each before starting the next. -/
def loadTemplateData (env : RenderEnv) (template : Template) : LoadResult :=
  match template.layout_definition with
  | none => .skipped
  | some layoutDef =>
    .loaded
      { width := (getCanvasDimensions template).1
        height := (getCanvasDimensions template).2
        backgroundColor := jsOrS (layoutDef.canvas.bind CanvasRecord.backgroundColor) "#ffffff"
        backgroundImage := loadBackgroundImage env (getCanvasDimensions template) layoutDef.canvas
        objects := loadElements env layoutDef.elements }

/-- The element loop of loadTemplateData run against an explicit clock:
each reconstruction is awaited (taking delay r time units) before the next
record is started, and a successfully reconstructed object is added to the
canvas at its completion time.  This makes the sequential-await structure
of the for-of loop explicit so that independence from per-element latency
can be stated. -/
def reconstructSequentially (env : RenderEnv) (delay : ElementRecord → ℕ) :
    ℕ → List ElementRecord → List (FabricObject × ℕ)
  | _, [] => []
  | t, r :: rs =>
    let done := t + delay r
    match createElementFromData env r with
    | none => reconstructSequentially env delay done rs
    | some o => (o, done) :: reconstructSequentially env delay done rs

end MemeEditor

namespace TemplateCreator

/-- getActualObjectDimensions: the exporter reads the geometry of every
element from its rendered bounding box, not from construction parameters. -/
def getActualObjectDimensions (obj : FabricObject) : Bounds :=
  getBoundingRect obj

/-- getCanvasDimensions of the video-capable TemplateCreator revision: the
video canvas is 500 high and Math.round(500 * 9 / 16) wide, the photo
canvas is 400 by 400. -/
def getCanvasDimensions (templateType : String) : ℚ × ℚ :=
  if templateType = "video" then
    (((jsRound ((500 : ℚ) * (9 / 16)) : ℤ) : ℚ), 500)
  else (400, 400)

/-- getCanvasBackgroundColor: black for video templates, white for photo. -/
def getCanvasBackgroundColor (templateType : String) : String :=
  if templateType = "video" then "#000000" else "#ffffff"

/-- Serialisation of one canvas object at a given z-position, as done by
the elements map inside saveTemplate.  The id is the positional string
built from the 1-based index; geometry comes from
getActualObjectDimensions; image objects flagged isVideo are written with
type video and their resolved video URL; circles overwrite width and
height with 2 * radius after the bounding box was recorded. -/
def exportElement (imageUrlMapping videoUrlMapping : String → Option String)
    (index : ℕ) (obj : FabricObject) : ElementRecord :=
  let actual := getActualObjectDimensions obj
  let base : ElementRecord :=
    { id := some ("element_" ++ toString (index + 1))
      type := obj.type
      x := some actual.left
      y := some actual.top
      width := some actual.width
      height := some actual.height }
  if obj.type = "textbox" then
    { base with
        text := some obj.text
        fontSize := some (jsOrQ obj.fontSize 16)
        fontFamily := some (jsOrS (some obj.fontFamily) "Arial")
        color := some (jsOrS (some obj.fill) "#000000") }
  else if obj.type = "image" then
    let withUrl : ElementRecord :=
      if obj.isVideo then
        { base with
            type := "video"
            videoUrl := some (jsOrS (obj.videoId.bind videoUrlMapping) obj.videoUrl)
            duration := some obj.videoDuration
            originalFileName := some obj.originalFileName }
      else
        { base with imageUrl := some (jsOrS (obj.imageId.bind imageUrlMapping) "") }
    { withUrl with
        originalWidth := some (jsOrQ obj.width actual.width)
        originalHeight := some (jsOrQ obj.height actual.height) }
  else if obj.type = "rect" then
    { base with
        fill := some (jsOrS (some obj.fill) "#ffffff")
        strokeColor := some (jsOrS (some obj.stroke) "#000000")
        strokeWidth := some (jsOrQ obj.strokeWidth 1) }
  else if obj.type = "circle" then
    let r := jsOrQ obj.radius 50
    { base with
        fill := some (jsOrS (some obj.fill) "#ffffff")
        strokeColor := some (jsOrS (some obj.stroke) "#000000")
        strokeWidth := some (jsOrQ obj.strokeWidth 1)
        radius := some r
        width := some (r * 2)
        height := some (r * 2) }
  else base

/-- The canvasObjects.map of saveTemplate: serialise every object with its
positional index, starting from a given index. -/
def exportElementsFrom (imageUrlMapping videoUrlMapping : String → Option String) :
    ℕ → List FabricObject → List ElementRecord
  | _, [] => []
  | i, o :: os =>
    exportElement imageUrlMapping videoUrlMapping i o ::
      exportElementsFrom imageUrlMapping videoUrlMapping (i + 1) os

/-- The full elements array of saveTemplate, indices starting at 0. -/
def exportElements (imageUrlMapping videoUrlMapping : String → Option String)
    (objs : List FabricObject) : List ElementRecord :=
  exportElementsFrom imageUrlMapping videoUrlMapping 0 objs

/-- A locally selected source file held in the pending-upload staging. -/
structure LocalFile where
  name : String
  size : ℕ
  deriving Repr, DecidableEq

/-- The blob-store and database collaborators of one save attempt: upload
returns the public URL on success and none on failure; uploadThumbnail is
the result of the thumbnail upload; insertOk is whether the insert into the
templates store succeeds. -/
structure SaveEnv where
  upload : String → LocalFile → Option String
  uploadThumbnail : Option String
  insertOk : Bool

/-- The session data saveTemplate reads. -/
structure SaveInput where
  templateName : String
  templateType : String
  pendingImageUploads : List (String × LocalFile)
  pendingVideoUploads : List (String × LocalFile)
  canvasObjects : List FabricObject
  maxDuration : ℚ
  backgroundColor : String
  deriving Repr, DecidableEq

/-- Outcome of saveTemplate.  Only the saved outcome corresponds to a row
actually persisted in the templates store. -/
inductive SaveOutcome where
  | validationError
  | uploadFailed (fileName : String)
  | thumbnailFailed
  | insertFailed (doc : LayoutDocument)
  | saved (doc : LayoutDocument)
  deriving Repr, DecidableEq

/-- The sequential for-of upload loop over one pending-uploads map: stop at
the first failing file (reporting its name), otherwise produce the mapping
from staged id to public URL. -/
def uploadAll (env : SaveEnv) (folder : String) :
    List (String × LocalFile) → Except String (List (String × String))
  | [] => .ok []
  | (stagedId, f) :: rest =>
    match env.upload folder f with
    | none => .error f.name
    | some url =>
      match uploadAll env folder rest with
      | .error n => .error n
      | .ok m => .ok ((stagedId, url) :: m)

/-- saveTemplate of the video-capable TemplateCreator revision, returning
the outcome together with the list of documents actually inserted into the
templates store.  The pending image uploads run first, then the pending
video uploads, then the thumbnail upload; any failure aborts before the
layout definition is assembled.  The maxDuration field is written only for
video templates, from the maxDuration accumulator of the session. -/
def saveTemplate (env : SaveEnv) (input : SaveInput) :
    SaveOutcome × List LayoutDocument :=
  if input.templateName = "" then (.validationError, [])
  else
    match uploadAll env "template-images" input.pendingImageUploads with
    | .error n => (.uploadFailed n, [])
    | .ok imgMap =>
      match uploadAll env "template-videos" input.pendingVideoUploads with
      | .error n => (.uploadFailed n, [])
      | .ok vidMap =>
        match env.uploadThumbnail with
        | none => (.thumbnailFailed, [])
        | some _ =>
          let elements := exportElements
            (fun stagedId => imgMap.lookup stagedId)
            (fun stagedId => vidMap.lookup stagedId)
            input.canvasObjects
          let dims := getCanvasDimensions input.templateType
          let doc : LayoutDocument :=
            { canvas := some
                { width := some dims.1
                  height := some dims.2
                  backgroundColor := some input.backgroundColor
                  backgroundImage := none }
              elements := some elements
              maxDuration :=
                if input.templateType = "video" then some input.maxDuration else none }
          if env.insertOk then (.saved doc, [doc]) else (.insertFailed doc, [])

/-- The object constructed by addRectangle. -/
def addRectangleObject : FabricObject :=
  { type := "rect", left := 100, top := 100, fill := "#ff0000",
    width := 100, height := 60, stroke := "#000000", strokeWidth := 2 }

/-- The object constructed by addCircle (fabric sets width and height to
2 * radius at construction). -/
def addCircleObject : FabricObject :=
  { type := "circle", left := 100, top := 100, fill := "#00ff00",
    radius := 50, width := 100, height := 100,
    stroke := "#000000", strokeWidth := 2 }

/-- The fabric image object handleVideosUpload builds from the first frame
of an accepted video: scaled to 0.3, carrying the staged videoId, the file
name, the clip duration and the local blob URL of the live decode handle. -/
def mkVideoObject (stagedId fileName : String) (duration vw vh : ℚ) : FabricObject :=
  { type := "image", left := 50, top := 50, scaleX := 3 / 10, scaleY := 3 / 10,
    width := vw, height := vh, strokeWidth := 0,
    isVideo := true, videoId := some stagedId, videoDuration := duration,
    videoUrl := "blob:" ++ fileName, originalFileName := fileName }

/-- The fabric image object handleImagesUpload builds from a selected
image file: scaled to 0.5 and carrying the staged imageId and file name. -/
def mkImageObject (stagedId fileName : String) (iw ih : ℚ) : FabricObject :=
  { type := "image", left := 50, top := 50, scaleX := 1 / 2, scaleY := 1 / 2,
    width := iw, height := ih, strokeWidth := 0,
    imageId := some stagedId, originalFileName := fileName }

/-- The creator session state relevant to the canvas object list, the
pending-upload staging and the maxDuration accumulator. -/
structure CreatorState where
  templateName : String
  templateType : String
  objects : List FabricObject
  pendingImageUploads : List (String × LocalFile)
  pendingVideoUploads : List (String × LocalFile)
  maxDuration : ℚ
  deriving Repr, DecidableEq

/-- Result of running handleVideosUpload on one selected file. -/
inductive VideoUploadResult where
  | rejectedSize (fileName : String)
  | rejectedDuration (fileName : String)
  | staged
  deriving Repr, DecidableEq

/-- The per-file body of handleVideosUpload: a file larger than 40 MB is
rejected with a toast before anything else happens; a clip longer than 50
seconds is rejected with a toast once its metadata is known; otherwise the
first frame is decoded, the object is added to the canvas, the file is
staged in pendingVideoUploads and the maxDuration accumulator is raised. -/
def handleVideoUpload (s : CreatorState) (stagedId : String) (f : LocalFile)
    (duration vw vh : ℚ) : VideoUploadResult × CreatorState :=
  if f.size > 40 * 1024 * 1024 then (.rejectedSize f.name, s)
  else if duration > 50 then (.rejectedDuration f.name, s)
  else
    (.staged,
      { s with
          objects := s.objects ++ [mkVideoObject stagedId f.name duration vw vh]
          pendingVideoUploads := s.pendingVideoUploads ++ [(stagedId, f)]
          maxDuration := max s.maxDuration duration })

/-- Math.max over the durations of a non-empty list of video objects, with
the 0 default of the surrounding ternary for the empty case. -/
def maxVideoDuration (objs : List FabricObject) : ℚ :=
  match objs.map FabricObject.videoDuration with
  | [] => 0
  | d :: ds => ds.foldl max d

/-- The session events the embedding tracks. -/
inductive CreatorEvent where
  | addVideo (stagedId : String) (f : LocalFile) (duration vw vh : ℚ)
  | addImage (stagedId : String) (f : LocalFile) (iw ih : ℚ)
  | addRect
  | deleteObject (idx : ℕ)
  | setTemplateType (t : String)
  deriving Repr, DecidableEq

/-- One session step.  addVideo is only reachable for video templates (the
upload input is rendered only then) and runs the checked upload handler;
deleteObject is handleDelete on the object at the given position,
recomputing maxDuration from the remaining video objects when a video is
deleted; setTemplateType recreates the canvas (clearing its objects) but
leaves the pending uploads and the maxDuration accumulator untouched. -/
def creatorStep (s : CreatorState) : CreatorEvent → CreatorState
  | .addVideo stagedId f duration vw vh =>
    if s.templateType = "video" then
      (handleVideoUpload s stagedId f duration vw vh).2
    else s
  | .addImage stagedId f iw ih =>
    { s with
        objects := s.objects ++ [mkImageObject stagedId f.name iw ih]
        pendingImageUploads := s.pendingImageUploads ++ [(stagedId, f)] }
  | .addRect => { s with objects := s.objects ++ [addRectangleObject] }
  | .deleteObject idx =>
    match s.objects.get? idx with
    | none => s
    | some obj =>
      let remaining := s.objects.eraseIdx idx
      { s with
          objects := remaining
          pendingImageUploads :=
            if truthyS obj.imageId then
              s.pendingImageUploads.filter (fun p => !(some p.1 == obj.imageId))
            else s.pendingImageUploads
          pendingVideoUploads :=
            if truthyS obj.videoId then
              s.pendingVideoUploads.filter (fun p => !(some p.1 == obj.videoId))
            else s.pendingVideoUploads
          maxDuration :=
            if truthyS obj.videoId then
              maxVideoDuration (remaining.filter FabricObject.isVideo)
            else s.maxDuration }
  | .setTemplateType t =>
    if t = s.templateType then s
    else { s with templateType := t, objects := [] }

/-- Run a list of session events from a state. -/
def runCreator (s : CreatorState) (evs : List CreatorEvent) : CreatorState :=
  evs.foldl creatorStep s

/-- The SaveInput snapshot saveTemplate reads from a session state. -/
def snapshot (s : CreatorState) : SaveInput :=
  { templateName := s.templateName
    templateType := s.templateType
    pendingImageUploads := s.pendingImageUploads
    pendingVideoUploads := s.pendingVideoUploads
    canvasObjects := s.objects
    maxDuration := s.maxDuration
    backgroundColor := getCanvasBackgroundColor s.templateType }

/-- The save-lock state: loading is the flag set by saveTemplate for the
whole in-flight save and read by the Save button through the disabled
predicate loading || !templateName; savedCount counts successful inserts
into the templates store. -/
structure UIState where
  loading : Bool
  templateName : String
  savedCount : ℕ
  deriving Repr, DecidableEq

/-- The two events of the save lock: a click on the Save button and the
resolution of the in-flight save. -/
inductive UIEvent where
  | clickSave
  | saveResolved (inserted : Bool)
  deriving Repr, DecidableEq

/-- One step of the save lock: a click on a disabled button dispatches
nothing, so a click while a save is loading or while the name is empty
leaves the state unchanged (rejected, not queued); an enabled click starts
the save, setting loading; the resolution clears loading and counts the
insert when it happened. -/
def uiStep (s : UIState) : UIEvent → UIState
  | .clickSave =>
    if s.loading = true ∨ s.templateName = "" then s
    else { s with loading := true }
  | .saveResolved inserted =>
    { s with
        loading := false
        savedCount := s.savedCount + (if inserted then 1 else 0) }

/-- Run a list of save-lock events from a state. -/
def uiRun (s : UIState) (evs : List UIEvent) : UIState :=
  evs.foldl uiStep s

end TemplateCreator

/-! Concrete instances used by the theorems below. -/

/-- A render environment whose decodes all fail (never reached by the
shape-only computations it is used for). -/
def envNone : MemeEditor.RenderEnv :=
  ⟨fun _ => none, fun _ _ _ _ => 0⟩

/-- A render environment in which every bitmap decodes to 100 by 100. -/
def env4 : MemeEditor.RenderEnv :=
  ⟨fun _ => some (100, 100), fun _ _ _ _ => 20⟩

/-- An empty upload-URL mapping. -/
def noMap : String → Option String := fun _ => none

/-- A render environment in which every bitmap decodes to 200 by 100. -/
def envW : MemeEditor.RenderEnv :=
  ⟨fun _ => some (200, 100), fun _ _ _ _ => 30⟩

/-- A latency assignment under which image decodes are slow. -/
def delayW : ElementRecord → ℕ :=
  fun r => if r.type = "image" then 7 else 1

/-- Three recognised element records: a textbox, an image and a rect. -/
def esW : List ElementRecord :=
  [ { type := "textbox", x := some 5, y := some 5, text := some "Hello",
      fontSize := some 24, fontFamily := some "Arial", color := some "#000000",
      width := some 200 },
    { type := "image", x := some 1, y := some 2, width := some 50,
      height := some 40, imageUrl := some "https:a.png" },
    { type := "rect", x := some 10, y := some 10, width := some 50,
      height := some 50, fill := some "#00ff00" } ]

/-- A well-formed document holding esW. -/
def docW : LayoutDocument :=
  { canvas := some { width := some 400, height := some 400, backgroundColor := some "#ffffff" }
    elements := some esW }

/-- A template row holding docW. -/
def tplW : Template :=
  { name := "w", type := "photo", layout_definition := some docW }

/-- A rect record used by the partial-failure witness. -/
def rectRec3 : ElementRecord :=
  { type := "rect", x := some 10, y := some 10, width := some 50,
    height := some 50, fill := some "#ff0000", strokeColor := some "#000000",
    strokeWidth := some 2 }

/-- An element record with an unrecognised type tag. -/
def sparkleRec : ElementRecord :=
  { type := "sparkle", x := some 0, y := some 0 }

/-- A circle record used by the partial-failure witness. -/
def circleRec3 : ElementRecord :=
  { type := "circle", x := some 100, y := some 100, radius := some 20 }

/-- A document with the unrecognised record between the two known ones. -/
def doc3 : LayoutDocument :=
  { canvas := some { width := some 400, height := some 400 }
    elements := some ([rectRec3] ++ sparkleRec :: [circleRec3]) }

/-- A template row holding doc3. -/
def tpl3 : Template :=
  { name := "three", type := "photo", layout_definition := some doc3 }

/-- A well-formed video element record, as the exporter produces it. -/
def videoRec4 : ElementRecord :=
  { id := some "element_1", type := "video", x := some 10, y := some 10,
    width := some 50, height := some 50, videoUrl := some "https:v.mp4",
    duration := some 12, originalFileName := some "v.mp4" }

/-- A second video element record for the amended-claim witness. -/
def videoRec4b : ElementRecord :=
  { videoRec4 with id := some "element_2", x := some 20 }

/-- A rect record in a document whose canvas block is missing. -/
def rectRec8 : ElementRecord :=
  { id := some "element_1", type := "rect", x := some 10, y := some 10,
    width := some 50, height := some 50, fill := some "#ff0000",
    strokeColor := some "#000000", strokeWidth := some 2 }

/-- A document with no canvas block but one loadable element. -/
def doc8 : LayoutDocument :=
  { canvas := none, elements := some [rectRec8] }

/-- A template row holding doc8. -/
def tpl8 : Template :=
  { name := "broken", type := "photo", layout_definition := some doc8 }

/-- A staged video file. -/
def fileF : TemplateCreator.LocalFile := ⟨"clip.mp4", 1000⟩

/-- A save environment in which every file upload fails. -/
def envF : TemplateCreator.SaveEnv :=
  ⟨fun _ _ => none, some "https:t.png", true⟩

/-- A session snapshot with one staged pending video. -/
def inputF : TemplateCreator.SaveInput :=
  { templateName := "t", templateType := "photo", pendingImageUploads := [],
    pendingVideoUploads := [("v1", fileF)], canvasObjects := [],
    maxDuration := 0, backgroundColor := "#ffffff" }

/-- The staged video file of the stale-maxDuration session. -/
def vfile6 : TemplateCreator.LocalFile := ⟨"clip.mp4", 1000000⟩

/-- A session that adds a 10 second video on a video template, switches the
template type to photo (which recreates the canvas and clears its objects)
and switches back to video. -/
def s6 : TemplateCreator.CreatorState :=
  TemplateCreator.runCreator
    { templateName := "t", templateType := "photo", objects := [],
      pendingImageUploads := [], pendingVideoUploads := [], maxDuration := 0 }
    [ .setTemplateType "video",
      .addVideo "v1" vfile6 10 160 90,
      .setTemplateType "photo",
      .setTemplateType "video" ]

/-- A save environment in which every upload and the insert succeed. -/
def env6 : TemplateCreator.SaveEnv :=
  { upload := fun folder f => some ("https:" ++ folder ++ "/" ++ f.name)
    uploadThumbnail := some "https:thumb.png"
    insertOk := true }

/-- An idle save-lock state with a template name filled in. -/
def ui0 : TemplateCreator.UIState :=
  { loading := false, templateName := "t", savedCount := 0 }

/-! Helper lemmas shared by the claim theorems. -/

/-- Every branch of exportElement keeps the positional id. -/
theorem exportElement_id (imgMap vidMap : String → Option String) (i : ℕ)
    (o : FabricObject) :
    (TemplateCreator.exportElement imgMap vidMap i o).id
      = some ("element_" ++ toString (i + 1)) := by
  unfold TemplateCreator.exportElement
  dsimp only
  repeat' split
  all_goals rfl

/-- The exported ids from a start index are the positional strings. -/
theorem exportElementsFrom_map_id (imgMap vidMap : String → Option String) :
    ∀ (objs : List FabricObject) (k : ℕ),
      (TemplateCreator.exportElementsFrom imgMap vidMap k objs).map ElementRecord.id
        = (List.range' k objs.length).map (fun i => some ("element_" ++ toString (i + 1)))
  | [], _ => rfl
  | o :: os, k => by
    show (TemplateCreator.exportElement imgMap vidMap k o).id ::
        (TemplateCreator.exportElementsFrom imgMap vidMap (k + 1) os).map ElementRecord.id
      = some ("element_" ++ toString (k + 1)) ::
        (List.range' (k + 1) os.length).map (fun i => some ("element_" ++ toString (i + 1)))
    rw [exportElement_id, exportElementsFrom_map_id imgMap vidMap os (k + 1)]

/-- The objects produced by the clocked sequential loader are the
reconstructions in document order, for any latency assignment. -/
theorem reconstructSequentially_map_fst (env : MemeEditor.RenderEnv)
    (delay : ElementRecord → ℕ) :
    ∀ (t : ℕ) (es : List ElementRecord),
      (MemeEditor.reconstructSequentially env delay t es).map Prod.fst
        = es.filterMap (MemeEditor.createElementFromData env)
  | _, [] => rfl
  | t, r :: rs => by
    unfold MemeEditor.reconstructSequentially
    cases h : MemeEditor.createElementFromData env r with
    | none =>
      simp [h, List.filterMap_cons,
        reconstructSequentially_map_fst env delay (t + delay r) rs]
    | some o =>
      simp [h, List.filterMap_cons,
        reconstructSequentially_map_fst env delay (t + delay r) rs]

/-- When every entry succeeds, filterMap keeps the whole list. -/
theorem filterMap_map_some_of_all {α β : Type} (f : α → Option β) :
    ∀ (l : List α), (∀ a ∈ l, (f a).isSome = true) →
      (l.filterMap f).map some = l.map f
  | [], _ => rfl
  | a :: l, h => by
    cases hfa : f a with
    | none =>
      have := h a (List.mem_cons_self a l)
      rw [hfa] at this
      simp at this
    | some b =>
      simp [List.filterMap_cons, hfa,
        filterMap_map_some_of_all f l (fun x hx => h x (List.mem_cons_of_mem a hx))]

/-- loadTemplateData on a template with a layout definition always reaches
the loaded outcome, with the canvas state built from the document. -/
theorem loadTemplateData_eq (env : MemeEditor.RenderEnv) (template : Template)
    (doc : LayoutDocument) (hdoc : template.layout_definition = some doc) :
    MemeEditor.loadTemplateData env template = .loaded
      { width := (MemeEditor.getCanvasDimensions template).1
        height := (MemeEditor.getCanvasDimensions template).2
        backgroundColor := jsOrS (doc.canvas.bind CanvasRecord.backgroundColor) "#ffffff"
        backgroundImage := MemeEditor.loadBackgroundImage env
          (MemeEditor.getCanvasDimensions template) doc.canvas
        objects := MemeEditor.loadElements env doc.elements } := by
  unfold MemeEditor.loadTemplateData
  rw [hdoc]

/-- A list whose uploads all went through has no failing entry. -/
theorem uploadAll_ok_ne_none (env : TemplateCreator.SaveEnv) (folder : String) :
    ∀ (l : List (String × TemplateCreator.LocalFile)) (m : List (String × String)),
      TemplateCreator.uploadAll env folder l = .ok m →
      ∀ p ∈ l, env.upload folder p.2 ≠ none
  | [], _, _, p, hp => by simp at hp
  | (sid, f) :: rest, m, h, p, hp => by
    rw [List.mem_cons] at hp
    unfold TemplateCreator.uploadAll at h
    cases hu : env.upload folder f with
    | none =>
      rw [hu] at h
      simp at h
    | some url =>
      rw [hu] at h
      cases hrest : TemplateCreator.uploadAll env folder rest with
      | error n =>
        rw [hrest] at h
        simp at h
      | ok m2 =>
        rcases hp with rfl | hp
        · simp [hu]
        · exact uploadAll_ok_ne_none env folder rest m2 hrest p hp

/-- A failed upload loop reports the name of a staged file whose upload
failed. -/
theorem uploadAll_error_mem (env : TemplateCreator.SaveEnv) (folder : String) :
    ∀ (l : List (String × TemplateCreator.LocalFile)) (n : String),
      TemplateCreator.uploadAll env folder l = .error n →
      ∃ p ∈ l, env.upload folder p.2 = none ∧ p.2.name = n
  | [], n, h => by simp [TemplateCreator.uploadAll] at h
  | (sid, f) :: rest, n, h => by
    unfold TemplateCreator.uploadAll at h
    cases hu : env.upload folder f with
    | none =>
      rw [hu] at h
      cases h
      exact ⟨(sid, f), List.mem_cons_self _ _, hu, rfl⟩
    | some url =>
      rw [hu] at h
      cases hrest : TemplateCreator.uploadAll env folder rest with
      | error n2 =>
        rw [hrest] at h
        have hn : n2 = n := by simpa using h
        obtain ⟨p, hp, hfail, hpname⟩ :=
          uploadAll_error_mem env folder rest n2 hrest
        exact ⟨p, List.mem_cons_of_mem _ hp, hfail, hpname.trans hn⟩
      | ok m2 =>
        rw [hrest] at h
        simp at h

/-! Claim theorems. -/

/-- C1: the spec claims that exporting and reloading any element reproduces
its rendered bounding box within 1 px.  For the default rectangle
(left 100, top 100, width 100, height 60, strokeWidth 2) the export records
the stroke-inclusive bounding box 102 by 62, and the loader rebuilds a rect
whose path width is that recorded value, so the stroke is added a second
time: the reloaded rendered bounding box is 104 by 64, a 2 px size error,
exceeding the claimed tolerance. -/
theorem rect_roundtrip_exceeds_one_pixel :
    TemplateCreator.getActualObjectDimensions TemplateCreator.addRectangleObject
        = ⟨100, 100, 102, 62⟩ ∧
    (MemeEditor.createElementFromData envNone
        (TemplateCreator.exportElement noMap noMap 0
          TemplateCreator.addRectangleObject)).map getBoundingRect
      = some ⟨100, 100, 104, 64⟩ := by
  constructor
  · simp [TemplateCreator.getActualObjectDimensions, getBoundingRect,
      TemplateCreator.addRectangleObject]
    norm_num
  · simp [envNone, noMap, MemeEditor.createElementFromData,
      TemplateCreator.exportElement, TemplateCreator.getActualObjectDimensions,
      getBoundingRect, TemplateCreator.addRectangleObject, jsOrN, jsOrS, jsOrQ]
    norm_num

/-- C2: the loader awaits each reconstruction before starting the next, so
for every document whose elements all reconstruct, the canvas object
sequence equals the document order, for every per-element latency
assignment. -/
theorem load_preserves_document_order (env : MemeEditor.RenderEnv)
    (delay : ElementRecord → ℕ) (t0 : ℕ) (template : Template)
    (doc : LayoutDocument) (es : List ElementRecord)
    (hdoc : template.layout_definition = some doc)
    (hes : doc.elements = some es)
    (hok : ∀ r ∈ es, (MemeEditor.createElementFromData env r).isSome = true) :
    ∃ cs, MemeEditor.loadTemplateData env template = .loaded cs ∧
      cs.objects = (MemeEditor.reconstructSequentially env delay t0 es).map Prod.fst ∧
      cs.objects.map some = es.map (MemeEditor.createElementFromData env) := by
  refine ⟨_, loadTemplateData_eq env template doc hdoc, ?_, ?_⟩
  · show MemeEditor.loadElements env doc.elements = _
    rw [hes, reconstructSequentially_map_fst]
    rfl
  · show (MemeEditor.loadElements env doc.elements).map some = _
    rw [hes]
    exact filterMap_map_some_of_all _ es hok

/-- C2 witness: a textbox, an image and a rect, with slow image decode. -/
theorem load_preserves_document_order_witness :
    ∃ cs, MemeEditor.loadTemplateData envW tplW = .loaded cs ∧
      cs.objects = (MemeEditor.reconstructSequentially envW delayW 0 esW).map Prod.fst ∧
      cs.objects.map some = esW.map (MemeEditor.createElementFromData envW) :=
  load_preserves_document_order envW delayW 0 tplW docW esW rfl rfl (by decide)

/-- C3: a record whose reconstruction fails (unrecognised type tag or
failed image decode) is skipped on its own: every other element is still
reconstructed and the load completes. -/
theorem element_failure_is_isolated (env : MemeEditor.RenderEnv)
    (template : Template) (doc : LayoutDocument)
    (l1 : List ElementRecord) (r : ElementRecord) (l2 : List ElementRecord)
    (hdoc : template.layout_definition = some doc)
    (hes : doc.elements = some (l1 ++ r :: l2))
    (hfail : MemeEditor.createElementFromData env r = none) :
    ∃ cs, MemeEditor.loadTemplateData env template = .loaded cs ∧
      cs.objects = l1.filterMap (MemeEditor.createElementFromData env)
        ++ l2.filterMap (MemeEditor.createElementFromData env) := by
  refine ⟨_, loadTemplateData_eq env template doc hdoc, ?_⟩
  show MemeEditor.loadElements env doc.elements = _
  rw [hes]
  simp [MemeEditor.loadElements, List.filterMap_append, List.filterMap_cons, hfail]

/-- C3 witness: a document with one unrecognised record between a rect and
a circle loads with exactly the two known elements. -/
theorem element_failure_is_isolated_witness :
    ∃ cs, MemeEditor.loadTemplateData env4 tpl3 = .loaded cs ∧
      cs.objects = [rectRec3].filterMap (MemeEditor.createElementFromData env4)
        ++ [circleRec3].filterMap (MemeEditor.createElementFromData env4) :=
  element_failure_is_isolated env4 tpl3 doc3 [rectRec3] sparkleRec [circleRec3]
    rfl rfl rfl

/-- C4 counterexample: the claim says a video record is reconstructed into
a first-frame still with the image scale computation.  On a well-formed
video record, in an environment where every bitmap decodes, the loader
produces no element at all: no branch of createElementFromData handles the
video tag, so the record falls to the unknown-type default and is
skipped. -/
theorem video_record_is_skipped_concrete :
    MemeEditor.createElementFromData env4 videoRec4 = none := rfl

/-- C4 amended: every element record with the video type tag is treated as
an unknown type by the loader: it is logged and skipped, never
reconstructed. -/
theorem video_record_always_skipped (env : MemeEditor.RenderEnv)
    (r : ElementRecord) (h : r.type = "video") :
    MemeEditor.createElementFromData env r = none := by
  unfold MemeEditor.createElementFromData
  rw [h]
  rfl

/-- C4 amended witness. -/
theorem video_record_always_skipped_witness :
    MemeEditor.createElementFromData env4 videoRec4b = none :=
  video_record_always_skipped env4 videoRec4b rfl

/-- C5: if the upload of any staged pending file fails, saveTemplate aborts
with the failing file reported and nothing is inserted into the templates
store (the layout document is only assembled after all uploads succeed). -/
theorem upload_failure_aborts_save (env : TemplateCreator.SaveEnv)
    (input : TemplateCreator.SaveInput)
    (hname : ¬ input.templateName = "")
    (h : (∃ p ∈ input.pendingImageUploads, env.upload "template-images" p.2 = none) ∨
         (∃ p ∈ input.pendingVideoUploads, env.upload "template-videos" p.2 = none)) :
    ∃ p, ((p ∈ input.pendingImageUploads ∧ env.upload "template-images" p.2 = none) ∨
          (p ∈ input.pendingVideoUploads ∧ env.upload "template-videos" p.2 = none)) ∧
      (TemplateCreator.saveTemplate env input).1 = .uploadFailed p.2.name ∧
      (TemplateCreator.saveTemplate env input).2 = [] := by
  cases himg : TemplateCreator.uploadAll env "template-images" input.pendingImageUploads with
  | error n =>
    obtain ⟨p, hp, hfail, hn⟩ :=
      uploadAll_error_mem env "template-images" input.pendingImageUploads n himg
    refine ⟨p, Or.inl ⟨hp, hfail⟩, ?_, ?_⟩
    · unfold TemplateCreator.saveTemplate
      rw [if_neg hname, himg, hn]
    · unfold TemplateCreator.saveTemplate
      rw [if_neg hname, himg]
  | ok m =>
    have himgall := uploadAll_ok_ne_none env "template-images"
      input.pendingImageUploads m himg
    rcases h with hImg | hVid
    · obtain ⟨p, hp, hfail⟩ := hImg
      exact absurd hfail (himgall p hp)
    · cases hvid : TemplateCreator.uploadAll env "template-videos" input.pendingVideoUploads with
      | error n =>
        obtain ⟨p, hp, hfail, hn⟩ :=
          uploadAll_error_mem env "template-videos" input.pendingVideoUploads n hvid
        refine ⟨p, Or.inr ⟨hp, hfail⟩, ?_, ?_⟩
        · unfold TemplateCreator.saveTemplate
          rw [if_neg hname, himg, hvid, hn]
        · unfold TemplateCreator.saveTemplate
          rw [if_neg hname, himg, hvid]
      | ok m2 =>
        have hvidall := uploadAll_ok_ne_none env "template-videos"
          input.pendingVideoUploads m2 hvid
        obtain ⟨p, hp, hfail⟩ := hVid
        exact absurd hfail (hvidall p hp)

/-- C5 witness: one staged video whose upload fails. -/
theorem upload_failure_aborts_save_witness :
    ∃ p, ((p ∈ inputF.pendingImageUploads ∧ envF.upload "template-images" p.2 = none) ∨
          (p ∈ inputF.pendingVideoUploads ∧ envF.upload "template-videos" p.2 = none)) ∧
      (TemplateCreator.saveTemplate envF inputF).1 = .uploadFailed p.2.name ∧
      (TemplateCreator.saveTemplate envF inputF).2 = [] :=
  upload_failure_aborts_save envF inputF (by decide)
    (Or.inr ⟨("v1", fileF), by decide, rfl⟩)

/-- Evaluation of the stale-maxDuration session trace. -/
theorem s6_eval :
    s6 = { templateName := "t", templateType := "video", objects := [],
           pendingImageUploads := [], pendingVideoUploads := [("v1", vfile6)],
           maxDuration := 10 } := by
  simp [s6, vfile6, TemplateCreator.runCreator, TemplateCreator.creatorStep,
    TemplateCreator.handleVideoUpload, TemplateCreator.mkVideoObject,
    show ¬ ((10 : ℚ) > 50) by norm_num,
    show max (0 : ℚ) 10 = 10 by norm_num]

/-- C6: the maxDuration accumulator is not reset when the template type
switches (which recreates the canvas and clears its objects), so a session
that adds a 10 second video, switches to photo and back to video persists a
document whose maxDuration is 10 while its elements array holds no video
element at all — contradicting the claim that maxDuration equals the
maximum duration across the video elements currently present and is 0 or
absent when there are none. -/
theorem stale_maxDuration_after_type_switch :
    (TemplateCreator.saveTemplate env6 (TemplateCreator.snapshot s6)).2
      = [ { canvas := some { width := some 281, height := some 500, backgroundColor := some "#000000", backgroundImage := none }
            elements := some []
            maxDuration := some 10 } ] := by
  have h281 : (⌊500 * (9 / 16 : ℚ) + 2⁻¹⌋ : ℤ) = 281 := by
    rw [Int.floor_eq_iff]
    norm_num
  rw [s6_eval]
  simp [TemplateCreator.snapshot, TemplateCreator.saveTemplate,
    TemplateCreator.uploadAll, env6, vfile6, TemplateCreator.exportElements,
    TemplateCreator.exportElementsFrom, TemplateCreator.getCanvasDimensions,
    TemplateCreator.getCanvasBackgroundColor, jsRound, h281]

/-- C7: a selected video file is rejected before staging when its size
exceeds 40 MB or its duration exceeds 50 seconds, and otherwise it is
staged: the result is staged exactly when size is at most 41943040 bytes
and duration at most 50 seconds, and the pending-uploads map gains the
entry exactly in that case. -/
theorem video_size_duration_gate (s : TemplateCreator.CreatorState)
    (stagedId : String) (f : TemplateCreator.LocalFile) (d vw vh : ℚ) :
    ((TemplateCreator.handleVideoUpload s stagedId f d vw vh).1
        = .staged ↔ f.size ≤ 41943040 ∧ d ≤ 50) ∧
    (TemplateCreator.handleVideoUpload s stagedId f d vw vh).2.pendingVideoUploads
      = (if f.size ≤ 41943040 ∧ d ≤ 50
         then s.pendingVideoUploads ++ [(stagedId, f)]
         else s.pendingVideoUploads) := by
  unfold TemplateCreator.handleVideoUpload
  by_cases h1 : f.size > 40 * 1024 * 1024
  · rw [if_pos h1]
    have hno : ¬ (f.size ≤ 41943040 ∧ d ≤ 50) := by
      rintro ⟨hs, -⟩
      omega
    constructor
    · constructor
      · intro hc
        simp at hc
      · intro hc
        exact absurd hc hno
    · rw [if_neg hno]
  · rw [if_neg h1]
    by_cases h2 : d > 50
    · rw [if_pos h2]
      have hno : ¬ (f.size ≤ 41943040 ∧ d ≤ 50) := by
        rintro ⟨-, hd⟩
        exact absurd h2 (not_lt.mpr hd)
      constructor
      · constructor
        · intro hc
          simp at hc
        · intro hc
          exact absurd hc hno
      · rw [if_neg hno]
    · rw [if_neg h2]
      have hyes : f.size ≤ 41943040 ∧ d ≤ 50 := ⟨by omega, le_of_not_lt h2⟩
      exact ⟨⟨fun _ => hyes, fun _ => rfl⟩, by rw [if_pos hyes]⟩

/-- C8 counterexample: the claim says a document whose canvas block is
missing makes the load fatal, with an error surfaced and no partial canvas.
On a document without a canvas block but with one rect element, the load
completes normally with the default dimensions and the rect present. -/
theorem missing_canvas_loads_successfully :
    MemeEditor.loadTemplateData env4 tpl8
      = .loaded { width := 400, height := 400, backgroundColor := "#ffffff",
                  backgroundImage := none,
                  objects := [{ type := "rect", left := 10, top := 10,
                                fill := "#ff0000", width := 50, height := 50,
                                stroke := "#000000", strokeWidth := 2 }] } := by
  simp [MemeEditor.loadTemplateData, MemeEditor.getCanvasDimensions,
    MemeEditor.loadElements, MemeEditor.loadBackgroundImage,
    MemeEditor.createElementFromData, tpl8, doc8, rectRec8, env4,
    jsOrN, jsOrS, truthyS]

/-- C8 amended: a missing canvas block is not fatal: loadTemplateData still
completes, substituting the default dimensions for the template type, the
default white background and no background image, while the elements are
loaded as usual; only a template without any layout_definition is not
loaded, and that path surfaces no error either. -/
theorem missing_canvas_uses_fallback_dimensions (env : MemeEditor.RenderEnv)
    (template : Template) (doc : LayoutDocument)
    (hdoc : template.layout_definition = some doc) (hcanvas : doc.canvas = none) :
    ∃ cs, MemeEditor.loadTemplateData env template = .loaded cs ∧
      cs.width = 400 ∧
      cs.height = (if template.type = "video" then 711 else 400) ∧
      cs.backgroundColor = "#ffffff" ∧
      cs.backgroundImage = none ∧
      cs.objects = MemeEditor.loadElements env doc.elements := by
  refine ⟨_, loadTemplateData_eq env template doc hdoc, ?_, ?_, ?_, ?_, rfl⟩
  · show (MemeEditor.getCanvasDimensions template).1 = 400
    simp only [MemeEditor.getCanvasDimensions, hdoc, hcanvas]
    split <;> rfl
  · show (MemeEditor.getCanvasDimensions template).2 = _
    simp only [MemeEditor.getCanvasDimensions, hdoc, hcanvas]
    split <;> rfl
  · show jsOrS (doc.canvas.bind CanvasRecord.backgroundColor) "#ffffff" = "#ffffff"
    rw [hcanvas]
    rfl
  · show MemeEditor.loadBackgroundImage env
        (MemeEditor.getCanvasDimensions template) doc.canvas = none
    rw [hcanvas]
    rfl

/-- C8 amended witness. -/
theorem missing_canvas_uses_fallback_dimensions_witness :
    ∃ cs, MemeEditor.loadTemplateData env4 tpl8 = .loaded cs ∧
      cs.width = 400 ∧
      cs.height = (if tpl8.type = "video" then 711 else 400) ∧
      cs.backgroundColor = "#ffffff" ∧
      cs.backgroundImage = none ∧
      cs.objects = MemeEditor.loadElements env4 doc8.elements :=
  missing_canvas_uses_fallback_dimensions env4 tpl8 doc8 rfl rfl

/-- C9: while a save is in flight the loading flag is set and the Save
button is disabled, so a second click dispatches nothing: it leaves the
session unchanged (rejected, not queued), and two rapid clicks followed by
the resolution of the first save persist exactly one document. -/
theorem second_save_click_rejected (s : TemplateCreator.UIState)
    (hidle : s.loading = false) (hname : ¬ s.templateName = "") :
    TemplateCreator.uiStep (TemplateCreator.uiStep s .clickSave) .clickSave
        = TemplateCreator.uiStep s .clickSave ∧
    (TemplateCreator.uiRun s [.clickSave, .clickSave, .saveResolved true]).savedCount
        = s.savedCount + 1 := by
  have hcond : ¬ (s.loading = true ∨ s.templateName = "") := by
    rintro (h | h)
    · rw [hidle] at h
      cases h
    · exact hname h
  have h1 : TemplateCreator.uiStep s .clickSave = { s with loading := true } := by
    unfold TemplateCreator.uiStep
    rw [if_neg hcond]
  have h2 : TemplateCreator.uiStep { s with loading := true } .clickSave
      = { s with loading := true } := by
    unfold TemplateCreator.uiStep
    rw [if_pos (Or.inl rfl)]
  constructor
  · rw [h1, h2]
  · show (TemplateCreator.uiRun _ _).savedCount = _
    unfold TemplateCreator.uiRun
    simp only [List.foldl]
    rw [h1, h2]
    unfold TemplateCreator.uiStep
    simp

/-- C9 witness. -/
theorem second_save_click_rejected_witness :
    TemplateCreator.uiStep (TemplateCreator.uiStep ui0 .clickSave) .clickSave
        = TemplateCreator.uiStep ui0 .clickSave ∧
    (TemplateCreator.uiRun ui0 [.clickSave, .clickSave, .saveResolved true]).savedCount
        = ui0.savedCount + 1 :=
  second_save_click_rejected ui0 rfl (by decide)

/-- C10: the id written for the element at position i of the canvas is the
positional string built from i + 1, for every canvas and every upload-URL
mapping: the ids are regenerated from the position on each save and carry
nothing of the session-local object identity. -/
theorem element_ids_are_positional (imgMap vidMap : String → Option String)
    (objs : List FabricObject) :
    (TemplateCreator.exportElements imgMap vidMap objs).map ElementRecord.id
      = (List.range objs.length).map (fun i => some ("element_" ++ toString (i + 1))) := by
  rw [List.range_eq_range']
  exact exportElementsFrom_map_id imgMap vidMap objs 0

end MemeApp
